import Mathlib

/-!
Verification development for the AIBI business-chat-automation assistant.

Shallow embedding of the confidence-scoring core (`features/smart_logic.py`),
the routing policy in `main.py::run_core_logic`, the draft store and reply
gate in `auto_reply.py`, the message accumulator in `main.py`, and the AI
response parsing in `ai_client.py::PerplexitySonarAgent._parse`.

Python machine floats are read as exact rationals; Python dicts keyed by
integers are read extensionally as functions `Int → Option _`; Python
exceptions raised by external clients are read as `Except` values; Python
truthiness of strings is made explicit (`pyTruthyStr`).
-/

namespace AIBI

/-- Python `str.lower()` restricted to the alphabets that occur in the source
(ASCII plus the Cyrillic letters used by the keyword lists). -/
def pyLowerChar (c : Char) : Char :=
  if 'A' ≤ c ∧ c ≤ 'Z' then Char.ofNat (c.toNat + 32)
  else if 0x410 ≤ c.toNat ∧ c.toNat ≤ 0x42F then Char.ofNat (c.toNat + 0x20)
  else if c.toNat = 0x401 then Char.ofNat 0x451
  else if c.toNat = 0x404 then Char.ofNat 0x454
  else if c.toNat = 0x406 then Char.ofNat 0x456
  else if c.toNat = 0x407 then Char.ofNat 0x457
  else if c.toNat = 0x490 then Char.ofNat 0x491
  else c

/-- Python `str.lower()`. -/
def pyLower (s : String) : String := ⟨s.data.map pyLowerChar⟩

/-- Python whitespace as used by `str.strip`, `str.split` and the regex `\s`. -/
def pyIsSpace (c : Char) : Bool :=
  c = ' ' || c = '\t' || c = '\n' || c = '\r' || c = '\x0b' || c = '\x0c'

/-- Decide whether `needle` occurs as a contiguous sublist of the second list
(Python's `needle in hay` for strings). -/
def containsSubList (needle : List Char) : List Char → Bool
  | [] => needle.isEmpty
  | c :: rest => needle.isPrefixOf (c :: rest) || containsSubList needle rest

/-- Python `needle in hay` on strings. -/
def containsSub (hay needle : String) : Bool := containsSubList needle.data hay.data

/-- Helper for `pySplitWs`: collect maximal non-whitespace runs. -/
def splitWsGo (cur : List Char) : List Char → List String
  | [] => if cur.isEmpty then [] else [⟨cur.reverse⟩]
  | c :: rest =>
    if pyIsSpace c then
      if cur.isEmpty then splitWsGo [] rest
      else ⟨cur.reverse⟩ :: splitWsGo [] rest
    else splitWsGo (c :: cur) rest

/-- Python `str.split()` with no separator: split on whitespace runs, dropping
empty pieces. -/
def pySplitWs (s : String) : List String := splitWsGo [] s.data

/-- Helper for `pySplitNewline`. -/
def splitLinesGo (cur : List Char) : List Char → List String
  | [] => [⟨cur.reverse⟩]
  | c :: rest =>
    if c = '\n' then ⟨cur.reverse⟩ :: splitLinesGo [] rest
    else splitLinesGo (c :: cur) rest

/-- Python `str.split('\n')`: split at every newline, keeping empty pieces. -/
def pySplitNewline (s : String) : List String := splitLinesGo [] s.data

/-- Python `str.strip()`. -/
def pyStrip (s : String) : String :=
  ⟨((s.data.dropWhile (fun c => pyIsSpace c)).reverse.dropWhile
      (fun c => pyIsSpace c)).reverse⟩

/-- Python truthiness of an optional string value (`if d.get("error"):`):
`None` and the empty string are falsy, every other string is truthy. -/
def pyTruthyStr : Option String → Bool
  | none => false
  | some s => !s.isEmpty

/-! ## DataSourceManager (`features/smart_logic.py`) -/

/-- The calendar collaborator: its `get_events` call either returns the event
list for the look-ahead window or raises (an exception carrying `str(e)`). -/
structure CalendarClient where
  get_events : Except String (List Unit)

/-- Result dict of `DataSourceManager.check_calendar_availability` (the
`next_free_slot` entry is omitted: it is never read by the decision engine). -/
structure CalendarResult where
  is_available : Bool
  busy_count : Nat
  error : Option String
deriving DecidableEq

/-- `DataSourceManager.check_calendar_availability` together with the inner
`_check_calendar_sync`: no client configured or a raised exception both
degrade to the available default with the error string recorded; otherwise
3 or more events in the window mark "not available". -/
def check_calendar_availability (calendar : Option CalendarClient) : CalendarResult :=
  match calendar with
  | none => { is_available := true, busy_count := 0, error := some "Calendar not configured" }
  | some c =>
    match c.get_events with
    | Except.ok events =>
      { is_available := events.length < 3, busy_count := events.length, error := none }
    | Except.error e =>
      { is_available := true, busy_count := 0, error := some e }

/-- A Trello card (`card.get('name', '')`). -/
structure TrelloCard where
  name : String

/-- A Trello list; the source skips list dicts with no `'id'` key. -/
structure TrelloList where
  list_id : Option String
  name : String

/-- The Trello collaborator: both calls may raise. -/
structure TrelloClient where
  get_lists : Except String (List TrelloList)
  get_cards : String → Except String (List TrelloCard)

/-- One matched task as assembled by `_get_trello_tasks_sync`
(`priority_high` records `priority == 'high'`, i.e. the lowered card name
contains the marker `важ`). -/
structure TrelloTask where
  title : String
  list_name : String
  priority_high : Bool
deriving DecidableEq

/-- Card match test of `_get_trello_tasks_sync`: exact lowered-substring match
of the chat title, or any whitespace token of the title occurring in the
lowered card name. -/
def cardMatches (chat_title_lower card_name_lower : String) : Bool :=
  containsSub card_name_lower chat_title_lower ||
    (pySplitWs chat_title_lower).any (fun w => containsSub card_name_lower w)

/-- Inner card loop of `_get_trello_tasks_sync`; the returned flag records the
early `return tasks` once `len(tasks) >= limit`. -/
def collectCards (title_lower list_name : String) (limit : Nat)
    (acc : List TrelloTask) : List TrelloCard → List TrelloTask × Bool
  | [] => (acc, false)
  | c :: cs =>
    let name_lower := pyLower c.name
    let acc' :=
      if cardMatches title_lower name_lower then
        acc ++ [{ title := c.name, list_name := list_name,
                  priority_high := containsSub name_lower "важ" }]
      else acc
    if limit ≤ acc'.length then (acc', true)
    else collectCards title_lower list_name limit acc' cs

/-- Outer list loop of `_get_trello_tasks_sync`; a raise from `get_cards`
propagates to the surrounding try (which yields `[]`). -/
def collectLists (cl : TrelloClient) (title_lower : String) (limit : Nat)
    (acc : List TrelloTask) : List TrelloList → Except String (List TrelloTask)
  | [] => Except.ok acc
  | l :: ls =>
    match l.list_id with
    | none => collectLists cl title_lower limit acc ls
    | some lid =>
      match cl.get_cards lid with
      | Except.error e => Except.error e
      | Except.ok cards =>
        match collectCards title_lower l.name limit acc cards with
        | (acc', true) => Except.ok acc'
        | (acc', false) => collectLists cl title_lower limit acc' ls

/-- `DataSourceManager.get_relevant_trello_tasks`: no client configured or any
raise from the Trello API degrades to the empty list. -/
def get_relevant_trello_tasks (trello : Option TrelloClient) (chat_title : String)
    (limit : Nat) : List TrelloTask :=
  match trello with
  | none => []
  | some cl =>
    match cl.get_lists with
    | Except.error _ => []
    | Except.ok ls =>
      match collectLists cl (pyLower chat_title) limit [] ls with
      | Except.error _ => []
      | Except.ok ts => ts

/-- Result dict of `DataSourceManager.extract_prices`. -/
structure PriceData where
  has_price_request : Bool
  matching_services : List String
  price_range : Option (Nat × Nat)
  exact_match : Bool
deriving DecidableEq

/-- The price-question keyword alternatives of the four `price_patterns`
regexes (each regex is an alternation of literals, searched in the lowered
message). -/
def priceKeywords : List String :=
  ["скільки коштує", "сколько стоит", "how much", "price", "cost", "вартість",
   "стоимость", "цена", "безкоштовно", "бесплатно", "free",
   "знижка", "скидка", "discount"]

/-- Character class `[^-$€]` of the price-line regex. -/
def priceNameChar (c : Char) : Bool := !(c = '-' || c = '$' || c = '€')

/-- Separator class `[-:]` of the price-line regex. -/
def priceSep (c : Char) : Bool := c = '-' || c = ':'

/-- Consume a case-insensitive literal (the lowered literal is given). -/
def matchCI : List Char → List Char → Option (List Char)
  | [], rest => some rest
  | _ :: _, [] => none
  | l :: ls, c :: cs => if pyLowerChar c = l then matchCI ls cs else none

/-- `[0-9]+` (greedy) with its decimal value; `int(match.group(2))` never
fails on an all-digit group. -/
def takeDigits (cs : List Char) : Option Nat :=
  let ds := cs.takeWhile (fun c => c.isDigit)
  if ds.isEmpty then none
  else some (ds.foldl (fun n c => n * 10 + (c.toNat - 48)) 0)

/-- Tail `\s*(?:від|from)?\s*\$?([0-9]+)` of the price-line regex, after the
separator. The optional literal and optional dollar sign can be consumed
greedily: a failing continuation cannot be rescued by skipping them, since
the continuation then starts with a non-space non-digit character. -/
def priceTail (cs : List Char) : Option Nat :=
  let cs1 := cs.dropWhile (fun c => pyIsSpace c)
  let attempt : List Char → Option Nat := fun r =>
    let r1 := r.dropWhile (fun c => pyIsSpace c)
    let r2 := match r1 with
      | '$' :: rest => rest
      | rest => rest
    takeDigits r2
  match matchCI "від".data cs1 with
  | some r =>
    match attempt r with
    | some n => some n
    | none =>
      match matchCI "from".data cs1 with
      | some r' =>
        match attempt r' with
        | some n => some n
        | none => attempt cs1
      | none => attempt cs1
  | none =>
    match matchCI "from".data cs1 with
    | some r' =>
      match attempt r' with
      | some n => some n
      | none => attempt cs1
    | none => attempt cs1

/-- Greedy backtracking over the length of group 1 (`[^-$€]+`, longest
first), followed by the separator and the tail. -/
def tryGroupOne (cs : List Char) : Nat → Option (String × Nat)
  | 0 => none
  | k + 1 =>
    let rest := cs.drop (k + 1)
    match rest with
    | s :: r =>
      if priceSep s then
        match priceTail r with
        | some n => some (⟨cs.take (k + 1)⟩, n)
        | none => tryGroupOne cs k
      else tryGroupOne cs k
    | [] => tryGroupOne cs k

/-- `re.search(r'([^-$€]+)[-:]\s*(?:від|from)?\s*\$?([0-9]+)', line, IGNORECASE)`:
try each start position left to right; at each position the group-1 run is
bounded by the first excluded character. -/
def searchPriceLine : List Char → Option (String × Nat)
  | [] => none
  | c :: cs =>
    let run := (c :: cs).takeWhile (fun x => priceNameChar x)
    match tryGroupOne (c :: cs) run.length with
    | some res => some res
    | none => searchPriceLine cs

/-- Smallest element of a nonempty Nat list (Python `min(prices)`). -/
def listMin (x : Nat) (xs : List Nat) : Nat := xs.foldl min x

/-- Largest element of a nonempty Nat list (Python `max(prices)`). -/
def listMax (x : Nat) (xs : List Nat) : Nat := xs.foldl max x

/-- `DataSourceManager.extract_prices`: detect whether the message asks about
price (keyword search over the lowered message), and if so scan the business
data lines containing a currency marker for `service - $amount` entries.
The `query_text` argument is accepted and ignored, as in the source. -/
def extract_prices (business_data message_text : String) (_query_text : String) :
    PriceData :=
  let message_lower := pyLower message_text
  let has_price_request := priceKeywords.any (fun k => containsSub message_lower k)
  if !has_price_request then
    { has_price_request := false, matching_services := [], price_range := none,
      exact_match := false }
  else
    let lines := pySplitNewline business_data
    let hits := lines.foldl (fun acc line =>
      if containsSub line "$" || containsSub line "грн" || containsSub line "€" then
        match searchPriceLine line.data with
        | some (service, price) => acc ++ [(pyStrip service, price)]
        | none => acc
      else acc) []
    let prices := hits.map (fun h => h.2)
    let matching_services :=
      hits.map (fun h => h.1 ++ ": $" ++ toString h.2)
    { has_price_request := true,
      matching_services := matching_services,
      price_range :=
        match prices with
        | [] => none
        | p :: ps => some (listMin p ps, listMax p ps),
      exact_match := !matching_services.isEmpty }

/-! ## SmartDecisionEngine (`features/smart_logic.py`) -/

/-- The three optional data sources held by `DataSourceManager`. -/
structure DataSourceManager where
  calendar : Option CalendarClient
  trello : Option TrelloClient
  business_data : String

/-- The `chat_context` dict passed to `evaluate_confidence`. -/
structure ChatContext where
  chat_title : String
  message_history : String
  analysis_report : String

/-- The `data_sources` entry of an evaluation result. -/
structure DataSourceScores where
  ai : Nat
  calendar : Nat
  trello : Nat
  price_list : Nat
deriving DecidableEq

/-- The `boosts` entry of an evaluation result (deviation from the neutral
midpoint 50). -/
structure Boosts where
  calendar_boost : Int
  trello_boost : Int
  price_boost : Int
deriving DecidableEq

/-- Result dict of `SmartDecisionEngine.evaluate_confidence`. -/
structure Evaluation where
  final_confidence : Int
  needs_manual_review : Bool
  reasoning : String
  data_sources : DataSourceScores
  boosts : Boosts
deriving DecidableEq

/-- `SmartDecisionEngine._score_calendar`: the Python code tests the error
string for truthiness, so an empty error message falls through to the
availability test. -/
def score_calendar (cal_data : CalendarResult) : Nat :=
  if pyTruthyStr cal_data.error then 50
  else if cal_data.is_available then 70
  else 30

/-- `SmartDecisionEngine._score_trello`: neutral 50 without tasks, otherwise
base `min 70 (50 + 5 per task)` plus `5` per high-priority task capped at 85. -/
def score_trello (tasks : List TrelloTask) : Nat :=
  if tasks.isEmpty then 50
  else
    let high_priority_count := (tasks.filter (fun t => t.priority_high)).length
    let base_score := min 70 (50 + tasks.length * 5)
    if 0 < high_priority_count then min 85 (base_score + high_priority_count * 5)
    else base_score

/-- `SmartDecisionEngine._score_prices`. -/
def score_prices (price_data : PriceData) : Nat :=
  if !price_data.has_price_request then 50
  else if price_data.exact_match then 85
  else 60

/-- `SmartDecisionEngine._calculate_final_score` with the default weights
(AI 0.60, calendar 0.20, trello 0.10, prices 0.10): the float weighted sum
read as an exact rational, then `int(...)` truncation (floor, all summands
being nonnegative). -/
def calculate_final_score (ai cal trello price : Nat) : Int :=
  ⌊(ai : ℚ) * 0.60 + (cal : ℚ) * 0.20 + (trello : ℚ) * 0.10 + (price : ℚ) * 0.10⌋

/-- `SmartDecisionEngine._generate_reasoning`. -/
def generate_reasoning (scores : DataSourceScores) (price_data : PriceData)
    (tasks : List TrelloTask) : String :=
  let parts := ["AI Analysis: " ++ toString scores.ai ++ "% confidence"]
  let parts :=
    if 60 < scores.calendar then parts ++ ["Calendar shows availability"]
    else if scores.calendar < 40 then parts ++ ["Calendar shows busy schedule"]
    else parts
  let parts :=
    if !tasks.isEmpty then
      parts ++ ["Found " ++ toString tasks.length ++ " related Trello tasks"]
    else parts
  let parts :=
    if price_data.has_price_request && !price_data.matching_services.isEmpty then
      parts ++ ["Price query matched " ++
        toString price_data.matching_services.length ++ " services"]
    else parts
  String.intercalate " | " parts

/-- `SmartDecisionEngine.evaluate_confidence` with the default review
threshold (`SMART_CONFIDENCE_THRESHOLD`, 90). Rule 1: unreadable files
short-circuit to confidence 0. Otherwise calendar, Trello and price scores
are gathered (raises inside the lookups have already degraded inside the
`DataSourceManager` wrappers), combined, clamped to `[0, 100]`, and compared
against the threshold. -/
def evaluate_confidence (dsm : DataSourceManager) (base_confidence : Nat)
    (ctx : ChatContext) (has_unreadable_files : Bool) : Evaluation :=
  if has_unreadable_files then
    { final_confidence := 0, needs_manual_review := true,
      reasoning := "Unreadable files present - manual review required",
      data_sources := { ai := 0, calendar := 0, trello := 0, price_list := 0 },
      boosts := { calendar_boost := 0, trello_boost := 0, price_boost := 0 } }
  else
    let cal_data := check_calendar_availability dsm.calendar
    let cal_score := score_calendar cal_data
    let tasks := get_relevant_trello_tasks dsm.trello ctx.chat_title 5
    let trello_score := score_trello tasks
    let price_data := extract_prices dsm.business_data ctx.message_history ctx.analysis_report
    let price_score := score_prices price_data
    let final0 := calculate_final_score base_confidence cal_score trello_score price_score
    let final := min 100 (max 0 final0)
    let scores : DataSourceScores :=
      { ai := base_confidence, calendar := cal_score, trello := trello_score,
        price_list := price_score }
    { final_confidence := final,
      needs_manual_review := decide (final < 90),
      reasoning := generate_reasoning scores price_data tasks,
      data_sources := scores,
      boosts := { calendar_boost := (cal_score : Int) - 50,
                  trello_boost := (trello_score : Int) - 50,
                  price_boost := (price_score : Int) - 50 } }

/-! ## Routing policy (`main.py::run_core_logic`, lines 444-609) -/

/-- The four mutually exclusive outcomes of the per-unit decision chain. -/
inductive RoutePath where
  | forced_review
  | auto_reply
  | manual_review
  | no_action
deriving DecidableEq

/-- The `if / elif / elif / else` chain of `run_core_logic`: unreadable files
first, then auto-reply on `final_confidence >= 90` within working hours, then
manual review when flagged and the draft bot is available, else no action. -/
def route_decision (has_unreadable_files : Bool) (final_confidence : Int)
    (working_hours : Bool) (needs_manual_review : Bool)
    (draft_bot_available : Bool) : RoutePath :=
  if has_unreadable_files then RoutePath.forced_review
  else if 90 ≤ final_confidence ∧ working_hours then RoutePath.auto_reply
  else if needs_manual_review ∧ draft_bot_available then RoutePath.manual_review
  else RoutePath.no_action

/-- The `has_unreadable_files` flag `run_core_logic` passes to
`generate_reply` on each path (`none`: the generator is not invoked). -/
def route_generation_flag : RoutePath → Option Bool
  | RoutePath.forced_review => some true
  | RoutePath.auto_reply => some false
  | RoutePath.manual_review => some false
  | RoutePath.no_action => none

/-- Transports available inside the auto-reply branch: the userbot send
(which may raise) and the optional bot-service fallback (which may raise or
return `false`). -/
structure SendTransports where
  userbot_send : Except String Unit
  bot_service : Option (Except String Bool)

/-- Observable outcome of the auto-reply branch body (lines 493-559):
which transports were attempted, whether a send succeeded and via which
method, and whether the branch fell through to the logged skip. -/
structure AutoReplyOutcome where
  attempted_transports : List String
  sent : Bool
  send_method : Option String
  skipped_low_confidence : Bool
deriving DecidableEq

/-- Body of the auto-reply branch after `generate_reply` returned: the send
block runs only under `reply_text and reply_confidence >= 70` (string
truthiness = non-emptiness); otherwise the unit is logged as skipped. Inside
the block the userbot is tried first, then the bot service as fallback. -/
def auto_reply_execute (reply_text : String) (reply_confidence : Int)
    (t : SendTransports) : AutoReplyOutcome :=
  if reply_text ≠ "" ∧ 70 ≤ reply_confidence then
    match t.userbot_send with
    | Except.ok _ =>
      { attempted_transports := ["USERBOT"], sent := true,
        send_method := some "USERBOT", skipped_low_confidence := false }
    | Except.error _ =>
      match t.bot_service with
      | some (Except.ok true) =>
        { attempted_transports := ["USERBOT", "BOT_SERVICE"], sent := true,
          send_method := some "BOT_SERVICE", skipped_low_confidence := false }
      | some (Except.ok false) =>
        { attempted_transports := ["USERBOT", "BOT_SERVICE"], sent := false,
          send_method := none, skipped_low_confidence := false }
      | some (Except.error _) =>
        { attempted_transports := ["USERBOT", "BOT_SERVICE"], sent := false,
          send_method := none, skipped_low_confidence := false }
      | none =>
        { attempted_transports := ["USERBOT"], sent := false,
          send_method := none, skipped_low_confidence := false }
  else
    { attempted_transports := [], sent := false, send_method := none,
      skipped_low_confidence := true }

/-! ## Draft store (`auto_reply.py::DraftReviewSystem`) -/

/-- One pending draft (the dict stored under a chat id). -/
structure Draft where
  draft : String
  chat_title : String
  confidence : Int
  timestamp : Nat
deriving DecidableEq

/-- The `pending_drafts` dict, read extensionally. -/
abbrev DraftStore := Int → Option Draft

/-- `DraftReviewSystem.add_draft`: unconditional upsert of the entry for
`chat_id` (the creation instant is passed explicitly in place of
`datetime.now()`). -/
def add_draft (s : DraftStore) (chat_id : Int) (chat_title draft_text : String)
    (confidence : Int) (now : Nat) : DraftStore :=
  fun k => if k = chat_id then
    some { draft := draft_text, chat_title := chat_title,
           confidence := confidence, timestamp := now }
  else s k

/-- `DraftReviewSystem.get_draft`: a pure dict lookup, the store is not
modified. -/
def get_draft (s : DraftStore) (chat_id : Int) : Option Draft := s chat_id

/-- `DraftReviewSystem.remove_draft`: delete the entry if present; a missing
key is a no-op. -/
def remove_draft (s : DraftStore) (chat_id : Int) : DraftStore :=
  fun k => if k = chat_id then none else s k

/-! ## Message accumulator (`main.py::MessageAccumulator`) -/

/-- `utils.ChatHistory` (the `recent_messages` list of raw sender dicts is
omitted: the accumulator neither reads nor writes it). -/
structure ChatHistory where
  chat_id : Int
  chat_title : String
  chat_type : String
  text : String
  has_unreadable_files : Bool
  last_sender_id : Option Int
  owner_id : Option Int
deriving DecidableEq

/-- The accumulator's two dicts, read extensionally (an absent key and an
empty pending list are observationally identical: both make
`get_accumulated` return `None` without touching state). -/
structure AccumulatorState where
  pending_messages : Int → List ChatHistory
  last_timestamp : Int → Option Nat

/-- `MessageAccumulator.add_message` (the arrival instant is passed
explicitly in place of `datetime.now()`). -/
def add_message (st : AccumulatorState) (h : ChatHistory) (now : Nat) :
    AccumulatorState :=
  { pending_messages := fun k =>
      if k = h.chat_id then st.pending_messages k ++ [h] else st.pending_messages k,
    last_timestamp := fun k =>
      if k = h.chat_id then some now else st.last_timestamp k }

/-- `MessageAccumulator.should_process`. -/
def should_process (st : AccumulatorState) (window_seconds : Nat) (chat_id : Int)
    (now : Nat) : Bool :=
  match st.last_timestamp chat_id with
  | none => false
  | some t => decide (window_seconds ≤ now - t)

/-- `MessageAccumulator.get_accumulated`: with no pending messages return
`None` and leave the state alone; otherwise merge (for two or more messages
the first message's text is replaced by the newline-join of all pending
texts in arrival order), clear both entries for the chat, and return the
merged unit. -/
def get_accumulated (st : AccumulatorState) (chat_id : Int) :
    Option ChatHistory × AccumulatorState :=
  match st.pending_messages chat_id with
  | [] => (none, st)
  | m :: ms =>
    let merged :=
      if ms.isEmpty then m
      else { m with text := String.intercalate "\n" ((m :: ms).map (fun x => x.text)) }
    (some merged,
     { pending_messages := fun k => if k = chat_id then [] else st.pending_messages k,
       last_timestamp := fun k => if k = chat_id then none else st.last_timestamp k })

/-! ## AI response parsing (`ai_client.py::PerplexitySonarAgent._parse`) -/

/-- A Python float: a finite IEEE-754 double (held as the exact rational it
denotes), an infinity, or NaN. -/
inductive PyFloat where
  | finite (q : ℚ)
  | inf (neg : Bool)
  | nan

/-- Python values produced by `json.loads`. -/
inductive PyJson where
  | null
  | boolean (b : Bool)
  | int (n : Int)
  | float (x : PyFloat)
  | str (s : String)
  | arr (xs : List PyJson)
  | obj (fields : List (String × PyJson))

/-- `⌊log2 q⌋` for a positive rational: the integer-part logs of numerator
and denominator give two candidates, settled by one comparison. -/
def floorLog2Q (q : ℚ) : ℤ :=
  let k0 : ℤ := (Nat.log2 q.num.natAbs : ℤ) - (Nat.log2 q.den : ℤ)
  if (2 : ℚ) ^ k0 ≤ q then k0 else k0 - 1

/-- Round an exact rational to the nearest IEEE-754 double (the value CPython's
`float(...)` produces for the decimal literal): 53-bit significand,
round-half-to-even, exponent clamped at the subnormal floor `2^-1074`, and
overflow to infinity when the rounded value reaches `2^1024`. A value that
underflows to zero is returned as `finite 0` (the sign of `-0.0` is dropped:
`int(-0.0) = 0`). -/
def roundToDouble (q : ℚ) : PyFloat :=
  if q = 0 then PyFloat.finite 0
  else
    let neg := decide (q < 0)
    let a : ℚ := |q|
    let k := floorLog2Q a
    let e : ℤ := max (k - 52) (-1074)
    let m : ℚ := a / (2 : ℚ) ^ e
    let n0 : ℤ := ⌊m⌋
    let fr : ℚ := m - (n0 : ℚ)
    let n1 : ℤ :=
      if (1 : ℚ) / 2 < fr then n0 + 1
      else if fr < (1 : ℚ) / 2 then n0
      else if n0 % 2 = 0 then n0 else n0 + 1
    let v : ℚ := (n1 : ℚ) * (2 : ℚ) ^ e
    if (2 : ℚ) ^ (1024 : ℤ) ≤ v then PyFloat.inf neg
    else if neg then PyFloat.finite (-v) else PyFloat.finite v

/-- JSON whitespace. -/
def jsonWs (c : Char) : Bool := c = ' ' || c = '\t' || c = '\n' || c = '\r'

/-- Hex digit value for `\u` escapes. -/
def hexVal (c : Char) : Option Nat :=
  if '0' ≤ c ∧ c ≤ '9' then some (c.toNat - 48)
  else if 'a' ≤ c ∧ c ≤ 'f' then some (c.toNat - 87)
  else if 'A' ≤ c ∧ c ≤ 'F' then some (c.toNat - 55)
  else none

/-- JSON string body after the opening quote, with the standard escapes.
Python's strict decoder rejects unescaped control characters (code points
below `0x20`). A `\u` high surrogate followed by a `\u` low surrogate is
combined into the encoded code point, as `json.loads` does; a lone surrogate
is accepted by `json.loads` (yielding a lone-surrogate `str`) — it is accepted
here too, with the unrepresentable code point mapped by `Char.ofNat`.
Fuel-indexed (one unit per step; callers hold ample fuel). -/
def parseJsonStr : Nat → List Char → List Char → Option (String × List Char)
  | 0, _, _ => none
  | Nat.succ fuel, acc, cs =>
    match cs with
    | [] => none
    | '"' :: rest => some (⟨acc.reverse⟩, rest)
    | '\\' :: e :: rest =>
      match e with
      | '"' => parseJsonStr fuel ('"' :: acc) rest
      | '\\' => parseJsonStr fuel ('\\' :: acc) rest
      | '/' => parseJsonStr fuel ('/' :: acc) rest
      | 'b' => parseJsonStr fuel ('\x08' :: acc) rest
      | 'f' => parseJsonStr fuel ('\x0c' :: acc) rest
      | 'n' => parseJsonStr fuel ('\n' :: acc) rest
      | 'r' => parseJsonStr fuel ('\r' :: acc) rest
      | 't' => parseJsonStr fuel ('\t' :: acc) rest
      | 'u' =>
        match rest with
        | h1 :: h2 :: h3 :: h4 :: rest' =>
          match hexVal h1, hexVal h2, hexVal h3, hexVal h4 with
          | some a, some b, some c, some d =>
            let cp := ((a * 16 + b) * 16 + c) * 16 + d
            if 0xD800 ≤ cp ∧ cp ≤ 0xDBFF then
              match rest' with
              | '\\' :: 'u' :: g1 :: g2 :: g3 :: g4 :: rest2 =>
                match hexVal g1, hexVal g2, hexVal g3, hexVal g4 with
                | some a2, some b2, some c2, some d2 =>
                  let cp2 := ((a2 * 16 + b2) * 16 + c2) * 16 + d2
                  if 0xDC00 ≤ cp2 ∧ cp2 ≤ 0xDFFF then
                    parseJsonStr fuel
                      (Char.ofNat (0x10000 + (cp - 0xD800) * 0x400 + (cp2 - 0xDC00)) :: acc)
                      rest2
                  else parseJsonStr fuel (Char.ofNat cp :: acc) rest'
                | _, _, _, _ => parseJsonStr fuel (Char.ofNat cp :: acc) rest'
              | _ => parseJsonStr fuel (Char.ofNat cp :: acc) rest'
            else parseJsonStr fuel (Char.ofNat cp :: acc) rest'
          | _, _, _, _ => none
        | _ => none
      | _ => none
    | '\\' :: [] => none
    | c :: rest =>
      if c.toNat < 0x20 then none
      else parseJsonStr fuel (c :: acc) rest

/-- JSON integer part: `0` or a nonzero digit followed by digits. -/
def parseJsonIntPart : List Char → Option (Nat × Nat × List Char)
  | [] => none
  | c :: rest =>
    if c = '0' then some (0, 1, rest)
    else if c.isDigit then
      let ds := rest.takeWhile (fun d => d.isDigit)
      some ((ds.foldl (fun n d => n * 10 + (d.toNat - 48)) (c.toNat - 48)),
            1 + ds.length, rest.drop ds.length)
    else none

/-- A run of digits with its value and length. -/
def parseDigitRun (cs : List Char) : Option (Nat × Nat × List Char) :=
  let ds := cs.takeWhile (fun d => d.isDigit)
  if ds.isEmpty then none
  else some (ds.foldl (fun n d => n * 10 + (d.toNat - 48)) 0, ds.length, cs.drop ds.length)

/-- Exponent tail after `e`/`E`; when no digits follow, back off and leave
the original input for the caller (which will then reject it). -/
def parseExpTail (rest orig : List Char) : Option Int × List Char :=
  match rest with
  | '+' :: ds =>
    match parseDigitRun ds with
    | some (v, _, r) => (some (v : Int), r)
    | none => (none, orig)
  | '-' :: ds =>
    match parseDigitRun ds with
    | some (v, _, r) => (some (-(v : Int)), r)
    | none => (none, orig)
  | ds =>
    match parseDigitRun ds with
    | some (v, _, r) => (some (v : Int), r)
    | none => (none, orig)

/-- JSON number (integer, fraction and exponent parts); an integer literal
yields a Python `int` (arbitrary precision), anything with a fraction or
exponent yields the `float` obtained by rounding the exact decimal value to
the nearest IEEE-754 double — overflowing to infinity, as CPython's `float`
conversion of the literal does. -/
def parseJsonNum (cs : List Char) : Option (PyJson × List Char) :=
  let signSplit : Bool × List Char :=
    match cs with
    | '-' :: rest => (true, rest)
    | rest => (false, rest)
  match parseJsonIntPart signSplit.2 with
  | none => none
  | some (ip, _, cs2) =>
    let fracSplit : Option (Nat × Nat) × List Char :=
      match cs2 with
      | '.' :: rest =>
        match parseDigitRun rest with
        | some (f, l, rest') => (some (f, l), rest')
        | none => (none, cs2)
      | _ => (none, cs2)
    let expSplit : Option Int × List Char :=
      match fracSplit.2 with
      | 'e' :: rest => parseExpTail rest fracSplit.2
      | 'E' :: rest => parseExpTail rest fracSplit.2
      | _ => (none, fracSplit.2)
    match fracSplit.1, expSplit.1 with
    | none, none =>
      some (PyJson.int (if signSplit.1 then -(ip : Int) else (ip : Int)), expSplit.2)
    | frac, ex =>
      let base : ℚ := (ip : ℚ) +
        (match frac with
         | none => 0
         | some (f, l) => (f : ℚ) / (10 : ℚ) ^ l)
      let epow : ℤ := match ex with | none => 0 | some e => e
      let scaled : ℚ := base * (10 : ℚ) ^ epow
      some (PyJson.float (roundToDouble (if signSplit.1 then -scaled else scaled)),
            expSplit.2)

mutual

/-- Recursive-descent JSON value (fuel-indexed; `json_loads` supplies ample
fuel, two units per input character). Besides the JSON grammar, the
`NaN`, `Infinity` and `-Infinity` constants are accepted, as Python's
`json.loads` accepts them by default. -/
def parseJsonVal : Nat → List Char → Option (PyJson × List Char)
  | 0, _ => none
  | Nat.succ fuel, cs =>
    match cs.dropWhile (fun c => jsonWs c) with
    | [] => none
    | '"' :: rest =>
      match parseJsonStr fuel [] rest with
      | some (s, rest') => some (PyJson.str s, rest')
      | none => none
    | 'n' :: 'u' :: 'l' :: 'l' :: rest => some (PyJson.null, rest)
    | 't' :: 'r' :: 'u' :: 'e' :: rest => some (PyJson.boolean true, rest)
    | 'f' :: 'a' :: 'l' :: 's' :: 'e' :: rest => some (PyJson.boolean false, rest)
    | 'N' :: 'a' :: 'N' :: rest => some (PyJson.float PyFloat.nan, rest)
    | 'I' :: 'n' :: 'f' :: 'i' :: 'n' :: 'i' :: 't' :: 'y' :: rest =>
      some (PyJson.float (PyFloat.inf false), rest)
    | '-' :: 'I' :: 'n' :: 'f' :: 'i' :: 'n' :: 'i' :: 't' :: 'y' :: rest =>
      some (PyJson.float (PyFloat.inf true), rest)
    | '[' :: rest => parseJsonArrStart fuel (rest.dropWhile (fun c => jsonWs c))
    | '\x7b' :: rest => parseJsonObjStart fuel (rest.dropWhile (fun c => jsonWs c))
    | c :: rest =>
      if c = '-' || c.isDigit then parseJsonNum (c :: rest) else none

/-- Array after `[` (whitespace already skipped). -/
def parseJsonArrStart : Nat → List Char → Option (PyJson × List Char)
  | 0, _ => none
  | Nat.succ fuel, cs =>
    match cs with
    | ']' :: rest => some (PyJson.arr [], rest)
    | _ =>
      match parseJsonVal fuel cs with
      | none => none
      | some (v, rest) => parseJsonArrRest fuel [v] rest

/-- Remaining array elements (accumulated in reverse). -/
def parseJsonArrRest : Nat → List PyJson → List Char → Option (PyJson × List Char)
  | 0, _, _ => none
  | Nat.succ fuel, acc, cs =>
    match cs.dropWhile (fun c => jsonWs c) with
    | ']' :: rest => some (PyJson.arr acc.reverse, rest)
    | ',' :: rest =>
      match parseJsonVal fuel rest with
      | none => none
      | some (v, rest') => parseJsonArrRest fuel (v :: acc) rest'
    | _ => none

/-- Object after `{` (whitespace already skipped). -/
def parseJsonObjStart : Nat → List Char → Option (PyJson × List Char)
  | 0, _ => none
  | Nat.succ fuel, cs =>
    match cs with
    | '\x7d' :: rest => some (PyJson.obj [], rest)
    | _ => parseJsonMember fuel [] cs

/-- Object members, in source order (Python keeps the last duplicate, which
`pyDictGet` reproduces). -/
def parseJsonMember : Nat → List (String × PyJson) → List Char →
    Option (PyJson × List Char)
  | 0, _, _ => none
  | Nat.succ fuel, acc, cs =>
    match cs.dropWhile (fun c => jsonWs c) with
    | '"' :: rest =>
      match parseJsonStr fuel [] rest with
      | none => none
      | some (key, rest') =>
        match rest'.dropWhile (fun c => jsonWs c) with
        | ':' :: rest2 =>
          match parseJsonVal fuel rest2 with
          | none => none
          | some (v, rest3) =>
            match rest3.dropWhile (fun c => jsonWs c) with
            | '\x7d' :: rest4 => some (PyJson.obj (acc ++ [(key, v)]), rest4)
            | ',' :: rest4 => parseJsonMember fuel (acc ++ [(key, v)]) rest4
            | _ => none
        | _ => none
    | _ => none

end

/-- `json.loads`: a full parse of the string with no trailing content. -/
def json_loads (s : String) : Option PyJson :=
  match parseJsonVal (2 * s.length + 8) s.data with
  | none => none
  | some (v, rest) =>
    if (rest.dropWhile (fun c => jsonWs c)).isEmpty then some v else none

/-- Suffix starting at the first occurrence of `c`. -/
def dropUntilChar (c : Char) : List Char → Option (List Char)
  | [] => none
  | x :: xs => if x = c then some (x :: xs) else dropUntilChar c xs

/-- Prefix up to and including the first occurrence of `c`. -/
def takeThroughChar (c : Char) : List Char → Option (List Char)
  | [] => none
  | x :: xs =>
    if x = c then some [x]
    else (takeThroughChar c xs).map (fun t => x :: t)

/-- `re.search(r'\x7b.*?\x7d', text, re.DOTALL)`: the fragment from the first
opening brace through the first closing brace after it (non-greedy, dot
matching newlines). If the first opening brace has no closing brace after
it, no later start position can match either. -/
def findJsonFragment (text : String) : Option String :=
  match dropUntilChar '\x7b' text.data with
  | none => none
  | some [] => none
  | some (b :: rest) =>
    match takeThroughChar '\x7d' rest with
    | none => none
    | some mid => some ⟨b :: mid⟩

/-- Python `dict.get` on the parsed member list (last duplicate wins). -/
def pyDictGet (kvs : List (String × PyJson)) (key : String) : Option PyJson :=
  kvs.foldl (fun acc kv => if kv.1 = key then some kv.2 else acc) none

/-- The whitespace code points Python's `int(str)` strips (the
`Py_UNICODE_ISSPACE` set). -/
def pyUniSpace (c : Char) : Bool :=
  decide ((0x09 ≤ c.toNat ∧ c.toNat ≤ 0x0D) ∨
    (0x1C ≤ c.toNat ∧ c.toNat ≤ 0x1F) ∨ c.toNat = 0x20 ∨
    c.toNat = 0x85 ∨ c.toNat = 0xA0 ∨ c.toNat = 0x1680 ∨
    (0x2000 ≤ c.toNat ∧ c.toNat ≤ 0x200A) ∨ c.toNat = 0x2028 ∨
    c.toNat = 0x2029 ∨ c.toNat = 0x202F ∨ c.toNat = 0x205F ∨ c.toNat = 0x3000)

/-- The Unicode decimal-digit (`Nd`) ranges as `(first code point, length)`
pairs; every range is zero-aligned, so the digit value is
`(code point - first) mod 10`. -/
def pyDigitRanges : List (Nat × Nat) :=
  [(0x30, 10), (0x660, 10), (0x6F0, 10), (0x7C0, 10), (0x966, 10), (0x9E6, 10),
   (0xA66, 10), (0xAE6, 10), (0xB66, 10), (0xBE6, 10), (0xC66, 10), (0xCE6, 10),
   (0xD66, 10), (0xDE6, 10), (0xE50, 10), (0xED0, 10), (0xF20, 10), (0x1040, 10),
   (0x1090, 10), (0x17E0, 10), (0x1810, 10), (0x1946, 10), (0x19D0, 10),
   (0x1A80, 10), (0x1A90, 10), (0x1B50, 10), (0x1BB0, 10), (0x1C40, 10),
   (0x1C50, 10), (0xA620, 10), (0xA8D0, 10), (0xA900, 10), (0xA9D0, 10),
   (0xA9F0, 10), (0xAA50, 10), (0xABF0, 10), (0xFF10, 10), (0x104A0, 10),
   (0x10D30, 10), (0x11066, 10), (0x110F0, 10), (0x11136, 10), (0x111D0, 10),
   (0x112F0, 10), (0x11450, 10), (0x114D0, 10), (0x11650, 10), (0x116C0, 10),
   (0x11730, 10), (0x118E0, 10), (0x11950, 10), (0x11C50, 10), (0x11D50, 10),
   (0x11DA0, 10), (0x16A60, 10), (0x16AC0, 10), (0x16B50, 10), (0x1D7CE, 50),
   (0x1E140, 10), (0x1E2F0, 10), (0x1E4F0, 10), (0x1E950, 10), (0x1FBF0, 10)]

/-- The decimal value of a Unicode digit, as Python's `int(str)` accepts it
(e.g. `int("٥") = 5`); `none` for non-digits. -/
def pyDigitVal (c : Char) : Option Nat :=
  pyDigitRanges.findSome? (fun r =>
    if r.1 ≤ c.toNat ∧ c.toNat < r.1 + r.2 then some ((c.toNat - r.1) % 10)
    else none)

/-- Helper loop for `parseIntUnderscoreDigits`. -/
def goUnderscoreDigits (acc : Nat) : List Char → Option Nat
  | [] => some acc
  | '_' :: d :: rest =>
    (match pyDigitVal d with
     | some v => goUnderscoreDigits (acc * 10 + v) rest
     | none => none)
  | '_' :: [] => none
  | d :: rest =>
    (match pyDigitVal d with
     | some v => goUnderscoreDigits (acc * 10 + v) rest
     | none => none)

/-- Unicode digits with optional single underscores between them, as accepted
by Python `int(str)`. -/
def parseIntUnderscoreDigits : List Char → Option Nat
  | [] => none
  | d :: rest =>
    (match pyDigitVal d with
     | some v => goUnderscoreDigits v rest
     | none => none)

/-- Python `int(s)` on a string: surrounding (Unicode) whitespace, optional
sign, nonempty run of Unicode decimal digits; anything else raises
`ValueError` (`none`). -/
def pyIntOfString (s : String) : Option Int :=
  let cs := ((s.data.dropWhile (fun c => pyUniSpace c)).reverse.dropWhile
    (fun c => pyUniSpace c)).reverse
  match cs with
  | '+' :: rest => (parseIntUnderscoreDigits rest).map (fun n => (n : Int))
  | '-' :: rest => (parseIntUnderscoreDigits rest).map (fun n => -(n : Int))
  | rest => (parseIntUnderscoreDigits rest).map (fun n => (n : Int))

/-- Python `int(x)` on the confidence value: strings are parsed, ints kept,
finite floats truncated toward zero, bools map to 0/1; infinities raise
`OverflowError`, NaN raises `ValueError`, and lists, dicts and `None` raise
`TypeError` (all `none`). -/
def pyIntOfJson : PyJson → Option Int
  | PyJson.str s => pyIntOfString s
  | PyJson.int n => some n
  | PyJson.float x =>
    (match x with
     | PyFloat.finite q => some (if 0 ≤ q then ⌊q⌋ else ⌈q⌉)
     | PyFloat.inf _ => none
     | PyFloat.nan => none)
  | PyJson.boolean b => some (if b then 1 else 0)
  | PyJson.null => none
  | PyJson.arr _ => none
  | PyJson.obj _ => none

/-- `data.get("report", text)`. -/
def reportOf (kvs : List (String × PyJson)) (text : String) : PyJson :=
  match pyDictGet kvs "report" with
  | some v => v
  | none => PyJson.str text

/-- `PerplexitySonarAgent._parse`: find a JSON fragment (else return the raw
text with confidence 0), decode it (a decode failure, or a non-dict value on
which `.get` would raise, is caught and returns the raw text with 0), read
`confidence` (a missing or `null` field becomes 50), convert it to an int (a
conversion failure is caught and returns the raw text with 0), and pair it
with `data.get("report", text)`. Total by construction: no exception escapes. -/
def pyParse (text : String) : PyJson × Int :=
  match findJsonFragment text with
  | none => (PyJson.str text, 0)
  | some frag =>
    match json_loads frag with
    | some (PyJson.obj kvs) =>
      match pyDictGet kvs "confidence" with
      | none => (reportOf kvs text, 50)
      | some PyJson.null => (reportOf kvs text, 50)
      | some v =>
        match pyIntOfJson v with
        | some n => (reportOf kvs text, n)
        | none => (PyJson.str text, 0)
    | _ => (PyJson.str text, 0)

/-! ## Sample inputs used by concrete witnesses -/

/-- A first accumulated raw message for chat 7. -/
def sampleHistoryA : ChatHistory :=
  { chat_id := 7, chat_title := "Chat", chat_type := "user",
    text := "first message", has_unreadable_files := false,
    last_sender_id := none, owner_id := none }

/-- A second accumulated raw message for chat 7. -/
def sampleHistoryB : ChatHistory :=
  { chat_id := 7, chat_title := "Chat", chat_type := "user",
    text := "second message", has_unreadable_files := false,
    last_sender_id := none, owner_id := none }

/-- An accumulator state with two pending messages for chat 7. -/
def sampleAccumulator : AccumulatorState :=
  { pending_messages := fun k => if k = 7 then [sampleHistoryA, sampleHistoryB] else [],
    last_timestamp := fun _ => none }

/-! ## Unfolding lemmas for the evaluation record -/

/-- Without unreadable files, the final confidence is the clamped weighted
combination of the four source scores. -/
theorem evaluate_final_eq (dsm : DataSourceManager) (base_confidence : Nat)
    (ctx : ChatContext) :
    (evaluate_confidence dsm base_confidence ctx false).final_confidence =
      min 100 (max 0 (calculate_final_score base_confidence
        (score_calendar (check_calendar_availability dsm.calendar))
        (score_trello (get_relevant_trello_tasks dsm.trello ctx.chat_title 5))
        (score_prices (extract_prices dsm.business_data ctx.message_history
          ctx.analysis_report)))) := rfl

/-- Without unreadable files, the reported per-source scores are the four
individually computed scores. -/
theorem evaluate_sources_eq (dsm : DataSourceManager) (base_confidence : Nat)
    (ctx : ChatContext) :
    (evaluate_confidence dsm base_confidence ctx false).data_sources =
      { ai := base_confidence,
        calendar := score_calendar (check_calendar_availability dsm.calendar),
        trello := score_trello (get_relevant_trello_tasks dsm.trello ctx.chat_title 5),
        price_list := score_prices (extract_prices dsm.business_data
          ctx.message_history ctx.analysis_report) } := rfl

/-- The review flag is exactly "final confidence below the default threshold
90". -/
theorem evaluate_needs_eq (dsm : DataSourceManager) (base_confidence : Nat)
    (ctx : ChatContext) :
    (evaluate_confidence dsm base_confidence ctx false).needs_manual_review =
      decide ((evaluate_confidence dsm base_confidence ctx false).final_confidence < 90) :=
  rfl

/-! ## Score bounds -/

/-- The calendar score is one of 30, 50, 70, hence at most 100. -/
theorem score_calendar_le (d : CalendarResult) : score_calendar d ≤ 100 := by
  cases hb : pyTruthyStr d.error <;> cases ha : d.is_available <;>
    simp [score_calendar, hb, ha]

/-- The Trello score is at most 85, hence at most 100. -/
theorem score_trello_le (tasks : List TrelloTask) : score_trello tasks ≤ 100 := by
  unfold score_trello
  cases h : tasks.isEmpty
  · simp only [h, Bool.false_eq_true, if_false]
    split
    · exact le_trans (Nat.min_le_left _ _) (by norm_num)
    · exact le_trans (Nat.min_le_left _ _) (by norm_num)
  · simp [h]

/-- The price score is one of 50, 60, 85, hence at most 100. -/
theorem score_prices_le (pd : PriceData) : score_prices pd ≤ 100 := by
  cases h1 : pd.has_price_request <;> cases h2 : pd.exact_match <;>
    simp [score_prices, h1, h2]

/-- The exact-rational reading of the weighted float sum truncates to the
same value as integer arithmetic: `(6a + 2c + t + p) div 10`. -/
theorem calculate_final_score_eq_natDiv (a c t p : ℕ) :
    calculate_final_score a c t p = (((6 * a + 2 * c + t + p) / 10 : ℕ) : ℤ) := by
  unfold calculate_final_score
  have h : (a : ℚ) * 0.60 + (c : ℚ) * 0.20 + (t : ℚ) * 0.10 + (p : ℚ) * 0.10
      = ((6 * a + 2 * c + t + p : ℕ) : ℚ) / ((10 : ℕ) : ℚ) := by
    push_cast
    norm_num
    ring
  rw [h, Rat.floor_natCast_div_natCast]
  rfl

/-- The final confidence, expressed over integer arithmetic only. -/
theorem evaluate_final_natDiv (dsm : DataSourceManager) (base_confidence : Nat)
    (ctx : ChatContext) :
    (evaluate_confidence dsm base_confidence ctx false).final_confidence =
      min 100 (max 0 (((6 * base_confidence
        + 2 * score_calendar (check_calendar_availability dsm.calendar)
        + score_trello (get_relevant_trello_tasks dsm.trello ctx.chat_title 5)
        + score_prices (extract_prices dsm.business_data ctx.message_history
            ctx.analysis_report)) / 10 : ℕ) : ℤ)) := by
  rw [evaluate_final_eq, calculate_final_score_eq_natDiv]

/-! ## Claim theorems -/

/-- C1: for every call to `evaluate_confidence` with `has_unreadable_files =
true`, the result has `final_confidence = 0` and `needs_manual_review = true`
regardless of the base AI confidence, the configured data sources and the
chat context; no other scoring step is performed (the whole result is the
fixed zero record). -/
theorem C1_zero_confidence_absolute (dsm : DataSourceManager)
    (base_confidence : Nat) (ctx : ChatContext) :
    (evaluate_confidence dsm base_confidence ctx true).final_confidence = 0 ∧
    (evaluate_confidence dsm base_confidence ctx true).needs_manual_review = true ∧
    evaluate_confidence dsm base_confidence ctx true =
      { final_confidence := 0, needs_manual_review := true,
        reasoning := "Unreadable files present - manual review required",
        data_sources := { ai := 0, calendar := 0, trello := 0, price_list := 0 },
        boosts := { calendar_boost := 0, trello_boost := 0, price_boost := 0 } } :=
  ⟨rfl, rfl, rfl⟩

/-- C2: without unreadable files, `final_confidence` is the weighted sum
`AI*0.60 + Calendar*0.20 + Trello*0.10 + Price*0.10` (default weights)
truncated to an integer and clamped to `[0, 100]`; for a valid AI base
confidence (at most 100) the clamp is the identity, the value equals
`(6*AI + 2*Cal + Trello + Price) div 10`, and `0 ≤ final_confidence ≤ 100`. -/
theorem C2_weighted_sum_clamped (dsm : DataSourceManager)
    (base_confidence : Nat) (ctx : ChatContext) (hbase : base_confidence ≤ 100) :
    (evaluate_confidence dsm base_confidence ctx false).final_confidence =
      min 100 (max 0 ⌊(base_confidence : ℚ) * 0.60
        + (score_calendar (check_calendar_availability dsm.calendar) : ℚ) * 0.20
        + (score_trello (get_relevant_trello_tasks dsm.trello ctx.chat_title 5) : ℚ) * 0.10
        + (score_prices (extract_prices dsm.business_data ctx.message_history
            ctx.analysis_report) : ℚ) * 0.10⌋) ∧
    (evaluate_confidence dsm base_confidence ctx false).final_confidence =
      (((6 * base_confidence
        + 2 * score_calendar (check_calendar_availability dsm.calendar)
        + score_trello (get_relevant_trello_tasks dsm.trello ctx.chat_title 5)
        + score_prices (extract_prices dsm.business_data ctx.message_history
            ctx.analysis_report)) / 10 : ℕ) : ℤ) ∧
    0 ≤ (evaluate_confidence dsm base_confidence ctx false).final_confidence ∧
    (evaluate_confidence dsm base_confidence ctx false).final_confidence ≤ 100 := by
  have hc := score_calendar_le (check_calendar_availability dsm.calendar)
  have ht := score_trello_le (get_relevant_trello_tasks dsm.trello ctx.chat_title 5)
  have hp := score_prices_le (extract_prices dsm.business_data ctx.message_history
    ctx.analysis_report)
  have hdiv : (6 * base_confidence
      + 2 * score_calendar (check_calendar_availability dsm.calendar)
      + score_trello (get_relevant_trello_tasks dsm.trello ctx.chat_title 5)
      + score_prices (extract_prices dsm.business_data ctx.message_history
          ctx.analysis_report)) / 10 ≤ 100 := by omega
  have hfinal : (evaluate_confidence dsm base_confidence ctx false).final_confidence =
      (((6 * base_confidence
        + 2 * score_calendar (check_calendar_availability dsm.calendar)
        + score_trello (get_relevant_trello_tasks dsm.trello ctx.chat_title 5)
        + score_prices (extract_prices dsm.business_data ctx.message_history
            ctx.analysis_report)) / 10 : ℕ) : ℤ) := by
    rw [evaluate_final_eq, calculate_final_score_eq_natDiv]
    rw [max_eq_right (by positivity), min_eq_right (by exact_mod_cast hdiv)]
  refine ⟨?_, hfinal, ?_, ?_⟩
  · exact evaluate_final_eq dsm base_confidence ctx
  · rw [hfinal]; positivity
  · rw [hfinal]; exact_mod_cast hdiv

/-- C2 witness: the theorem applied at a concrete engine with no configured
sources and AI base confidence 80. -/
theorem C2_witness :
    (80 : ℕ) ≤ 100 ∧
    ((evaluate_confidence ⟨none, none, ""⟩ 80 ⟨"Chat", "hello", ""⟩ false).final_confidence =
      min 100 (max 0 ⌊((80 : ℕ) : ℚ) * 0.60
        + (score_calendar (check_calendar_availability (⟨none, none, ""⟩ : DataSourceManager).calendar) : ℚ) * 0.20
        + (score_trello (get_relevant_trello_tasks (⟨none, none, ""⟩ : DataSourceManager).trello
            (⟨"Chat", "hello", ""⟩ : ChatContext).chat_title 5) : ℚ) * 0.10
        + (score_prices (extract_prices (⟨none, none, ""⟩ : DataSourceManager).business_data
            (⟨"Chat", "hello", ""⟩ : ChatContext).message_history
            (⟨"Chat", "hello", ""⟩ : ChatContext).analysis_report) : ℚ) * 0.10⌋) ∧
    (evaluate_confidence ⟨none, none, ""⟩ 80 ⟨"Chat", "hello", ""⟩ false).final_confidence =
      (((6 * 80
        + 2 * score_calendar (check_calendar_availability (⟨none, none, ""⟩ : DataSourceManager).calendar)
        + score_trello (get_relevant_trello_tasks (⟨none, none, ""⟩ : DataSourceManager).trello
            (⟨"Chat", "hello", ""⟩ : ChatContext).chat_title 5)
        + score_prices (extract_prices (⟨none, none, ""⟩ : DataSourceManager).business_data
            (⟨"Chat", "hello", ""⟩ : ChatContext).message_history
            (⟨"Chat", "hello", ""⟩ : ChatContext).analysis_report)) / 10 : ℕ) : ℤ) ∧
    0 ≤ (evaluate_confidence ⟨none, none, ""⟩ 80 ⟨"Chat", "hello", ""⟩ false).final_confidence ∧
    (evaluate_confidence ⟨none, none, ""⟩ 80 ⟨"Chat", "hello", ""⟩ false).final_confidence ≤ 100) :=
  ⟨by norm_num, C2_weighted_sum_clamped ⟨none, none, ""⟩ 80 ⟨"Chat", "hello", ""⟩ (by norm_num)⟩

/-- C3: a unit with unreadable files always routes to forced review and never
to auto-reply, whatever the final confidence (including 95), the working-hours
flag, the review flag and the draft-bot availability: the unreadable branch of
the chain is tried strictly first. -/
theorem C3_unreadable_routes_forced_review (final_confidence : Int)
    (working_hours needs_manual_review draft_bot_available : Bool) :
    route_decision true final_confidence working_hours needs_manual_review
      draft_bot_available = RoutePath.forced_review ∧
    route_decision true final_confidence working_hours needs_manual_review
      draft_bot_available ≠ RoutePath.auto_reply :=
  ⟨rfl, by simp [route_decision]⟩

/-- C4: in the auto-reply branch, if the generator's own confidence is below
70 then no transport is attempted, nothing is sent and the unit is logged as
skipped; conversely a send is attempted only when the generated text is
non-empty and the generator confidence is at least 70. -/
theorem C4_auto_reply_double_gate (reply_text : String) (reply_confidence : Int)
    (t : SendTransports) (hconf : reply_confidence < 70) :
    (auto_reply_execute reply_text reply_confidence t).attempted_transports = [] ∧
    (auto_reply_execute reply_text reply_confidence t).sent = false ∧
    (auto_reply_execute reply_text reply_confidence t).skipped_low_confidence = true ∧
    (∀ (text2 : String) (conf2 : Int) (t2 : SendTransports),
      (auto_reply_execute text2 conf2 t2).attempted_transports ≠ [] →
      text2 ≠ "" ∧ 70 ≤ conf2) := by
  have hneg : ¬(reply_text ≠ "" ∧ 70 ≤ reply_confidence) := by
    intro hand
    omega
  unfold auto_reply_execute
  rw [if_neg hneg]
  refine ⟨rfl, rfl, rfl, ?_⟩
  intro text2 conf2 t2 hatt
  by_cases hc : text2 ≠ "" ∧ 70 ≤ conf2
  · exact hc
  · exfalso
    apply hatt
    rw [if_neg hc]

/-- C4 witness: the theorem applied at a non-empty generated text with
confidence 40 and a userbot transport that would succeed. -/
theorem C4_witness :
    (40 : Int) < 70 ∧
    ((auto_reply_execute "Hello client" 40 ⟨Except.ok (), none⟩).attempted_transports = [] ∧
    (auto_reply_execute "Hello client" 40 ⟨Except.ok (), none⟩).sent = false ∧
    (auto_reply_execute "Hello client" 40 ⟨Except.ok (), none⟩).skipped_low_confidence = true ∧
    (∀ (text2 : String) (conf2 : Int) (t2 : SendTransports),
      (auto_reply_execute text2 conf2 t2).attempted_transports ≠ [] →
      text2 ≠ "" ∧ 70 ≤ conf2)) :=
  ⟨by norm_num, C4_auto_reply_double_gate "Hello client" 40 ⟨Except.ok (), none⟩ (by norm_num)⟩

/-- C5: the draft store keeps at most one draft per conversation id: adding
twice for the same id (with different texts) leaves only the most recent
draft, removing then reading yields `none`, removing a missing id leaves the
store pointwise unchanged, and reading is a pure lookup. -/
theorem C5_draft_store_last_write_wins (s : DraftStore) (chat_id : Int)
    (title1 text1 : String) (conf1 : Int) (now1 : Nat)
    (title2 text2 : String) (conf2 : Int) (now2 : Nat)
    (_hdiff : text1 ≠ text2) :
    get_draft (add_draft (add_draft s chat_id title1 text1 conf1 now1)
        chat_id title2 text2 conf2 now2) chat_id =
      some { draft := text2, chat_title := title2, confidence := conf2,
             timestamp := now2 } ∧
    (∀ s2 : DraftStore, get_draft (remove_draft s2 chat_id) chat_id = none) ∧
    (get_draft s chat_id = none → ∀ k, remove_draft s chat_id k = s k) ∧
    (∀ k, get_draft s k = s k) := by
  refine ⟨?_, ?_, ?_, fun k => rfl⟩
  · simp [get_draft, add_draft]
  · intro s2
    simp [get_draft, remove_draft]
  · intro hmiss k
    unfold remove_draft
    by_cases hk : k = chat_id
    · subst hk
      rw [if_pos rfl]
      exact hmiss.symm
    · rw [if_neg hk]

/-- C5 witness: the theorem applied at the empty store with two adds for
chat 1. -/
theorem C5_witness :
    ("first draft" : String) ≠ "second draft" ∧
    (get_draft (add_draft (add_draft (fun _ => none) 1 "Chat" "first draft" 80 0)
        1 "Chat" "second draft" 90 1) 1 =
      some { draft := "second draft", chat_title := "Chat", confidence := 90,
             timestamp := 1 } ∧
    (∀ s2 : DraftStore, get_draft (remove_draft s2 1) 1 = none) ∧
    (get_draft (fun _ => none) 1 = none → ∀ k, remove_draft (fun _ => none) 1 k =
      (fun (_ : Int) => (none : Option Draft)) k) ∧
    (∀ k, get_draft (fun _ => none) k = (fun (_ : Int) => (none : Option Draft)) k)) :=
  ⟨by decide, C5_draft_store_last_write_wins (fun _ => none) 1 "Chat" "first draft" 80 0
    "Chat" "second draft" 90 1 (by decide)⟩

/-- With a Trello client whose every `get_cards` call raises, the list loop
either finishes with the accumulator unchanged or propagates the raise. -/
theorem collectLists_cards_error (cl : TrelloClient) (title : String)
    (limit : Nat) (e : String) (hcards : ∀ lid, cl.get_cards lid = Except.error e) :
    ∀ (ls : List TrelloList) (acc : List TrelloTask),
      collectLists cl title limit acc ls = Except.ok acc ∨
      collectLists cl title limit acc ls = Except.error e := by
  intro ls
  induction ls with
  | nil =>
    intro acc
    left
    rfl
  | cons l ls ih =>
    intro acc
    rcases hid : l.list_id with _ | lid
    · simp only [collectLists, hid]
      exact ih acc
    · simp only [collectLists, hid, hcards lid]
      exact Or.inr trivial

/-- A Trello client whose `get_lists` succeeds but whose every `get_cards`
call raises yields no tasks: the raise is caught and degrades to `[]`. -/
theorem get_tasks_cards_error (lists : List TrelloList) (cards_err title : String) :
    get_relevant_trello_tasks
      (some ⟨Except.ok lists, fun _ => Except.error cards_err⟩) title 5 = [] := by
  unfold get_relevant_trello_tasks
  dsimp only
  rcases collectLists_cards_error ⟨Except.ok lists, fun _ => Except.error cards_err⟩
      (pyLower title) 5 cards_err (fun _ => rfl) lists [] with h | h
  · rw [h]
  · rw [h]

/-- C6 counterexample: a calendar lookup that raises an exception whose
string representation is empty (as a bare `Exception()` or
`asyncio.TimeoutError()` produces) yields the available-default score 70, not
the neutral 50: the code tests the recorded error string for truthiness. -/
theorem C6_counterexample_empty_error_message :
    check_calendar_availability (some ⟨Except.error ""⟩) =
      { is_available := true, busy_count := 0, error := some "" } ∧
    (evaluate_confidence ⟨some ⟨Except.error ""⟩, none, ""⟩ 50
        ⟨"Chat", "hello", ""⟩ false).data_sources.calendar = 70 ∧
    (70 : ℕ) ≠ 50 :=
  ⟨rfl, rfl, by decide⟩

/-- C6 (amended): per source, independently. (1) If the calendar lookup
raises with a non-empty message, the calendar score is exactly 50 while the
Trello and price scores are computed exactly as from the remaining inputs,
for an arbitrary (healthy or absent) Trello client. (2) If the Trello
`get_lists` call raises (any message), the Trello score is exactly 50 while
the calendar and price scores are computed exactly as from the remaining
inputs, for an arbitrary calendar client. (3) Likewise when `get_lists`
succeeds but every `get_cards` call raises. In each case the evaluation
still completes (the embedding is a total function: no exception propagates
out of `evaluate_confidence`). -/
theorem C6_neutral_fallback_amended :
    (∀ (cal_err : String) (trello : Option TrelloClient) (business_data : String)
        (base_confidence : Nat) (ctx : ChatContext), cal_err ≠ "" →
      (evaluate_confidence ⟨some ⟨Except.error cal_err⟩, trello, business_data⟩
          base_confidence ctx false).data_sources =
        { ai := base_confidence, calendar := 50,
          trello := score_trello (get_relevant_trello_tasks trello ctx.chat_title 5),
          price_list := score_prices (extract_prices business_data
            ctx.message_history ctx.analysis_report) }) ∧
    (∀ (calendar : Option CalendarClient) (trello_err : String)
        (cards : String → Except String (List TrelloCard)) (business_data : String)
        (base_confidence : Nat) (ctx : ChatContext),
      (evaluate_confidence ⟨calendar, some ⟨Except.error trello_err, cards⟩,
          business_data⟩ base_confidence ctx false).data_sources =
        { ai := base_confidence,
          calendar := score_calendar (check_calendar_availability calendar),
          trello := 50,
          price_list := score_prices (extract_prices business_data
            ctx.message_history ctx.analysis_report) }) ∧
    (∀ (calendar : Option CalendarClient) (lists : List TrelloList)
        (cards_err business_data : String) (base_confidence : Nat)
        (ctx : ChatContext),
      (evaluate_confidence
          ⟨calendar, some ⟨Except.ok lists, fun _ => Except.error cards_err⟩,
           business_data⟩ base_confidence ctx false).data_sources =
        { ai := base_confidence,
          calendar := score_calendar (check_calendar_availability calendar),
          trello := 50,
          price_list := score_prices (extract_prices business_data
            ctx.message_history ctx.analysis_report) }) := by
  refine ⟨?_, ?_, ?_⟩
  · intro cal_err trello business_data base_confidence ctx hmsg
    rw [evaluate_sources_eq]
    have h1 : score_calendar
        (check_calendar_availability (some ⟨Except.error cal_err⟩)) = 50 := by
      have he : cal_err.isEmpty = false := by
        cases he : cal_err.isEmpty
        · rfl
        · exact absurd ((String.isEmpty_iff cal_err).mp he) hmsg
      simp [check_calendar_availability, score_calendar, pyTruthyStr, he]
    rw [h1]
  · intro calendar trello_err cards business_data base_confidence ctx
    rw [evaluate_sources_eq]
    have h2 : get_relevant_trello_tasks (some ⟨Except.error trello_err, cards⟩)
        ctx.chat_title 5 = [] := rfl
    rw [h2]
    rfl
  · intro calendar lists cards_err business_data base_confidence ctx
    rw [evaluate_sources_eq]
    rw [get_tasks_cards_error lists cards_err ctx.chat_title]
    rfl

/-- C6 witness: conjunct (1) applied with only the calendar raising while a
healthy Trello client serves lists and cards, and conjunct (2) applied with
only Trello raising while a healthy calendar client serves events. -/
theorem C6_witness :
    ("boom" : String) ≠ "" ∧
    ((evaluate_confidence ⟨some ⟨Except.error "boom"⟩,
        some ⟨Except.ok [⟨some "list1", "Tasks"⟩],
              fun _ => Except.ok [⟨"Acme Client follow-up"⟩]⟩,
        "Basic service - $100"⟩ 80
        ⟨"Acme Client", "what is the price", "report"⟩ false).data_sources =
      { ai := 80, calendar := 50,
        trello := score_trello (get_relevant_trello_tasks
          (some ⟨Except.ok [⟨some "list1", "Tasks"⟩],
                 fun _ => Except.ok [⟨"Acme Client follow-up"⟩]⟩) "Acme Client" 5),
        price_list := score_prices (extract_prices "Basic service - $100"
          "what is the price" "report") }) ∧
    ((evaluate_confidence ⟨some ⟨Except.ok []⟩,
        some ⟨Except.error "trello down", fun _ => Except.error "trello down"⟩,
        "Basic service - $100"⟩ 80
        ⟨"Acme Client", "what is the price", "report"⟩ false).data_sources =
      { ai := 80,
        calendar := score_calendar (check_calendar_availability (some ⟨Except.ok []⟩)),
        trello := 50,
        price_list := score_prices (extract_prices "Basic service - $100"
          "what is the price" "report") }) :=
  ⟨by decide,
   C6_neutral_fallback_amended.1 "boom"
     (some ⟨Except.ok [⟨some "list1", "Tasks"⟩],
            fun _ => Except.ok [⟨"Acme Client follow-up"⟩]⟩)
     "Basic service - $100" 80 ⟨"Acme Client", "what is the price", "report"⟩
     (by decide),
   C6_neutral_fallback_amended.2.1 (some ⟨Except.ok []⟩) "trello down"
     (fun _ => Except.error "trello down") "Basic service - $100" 80
     ⟨"Acme Client", "what is the price", "report"⟩⟩

/-- C7 counterexample: with AI base confidence 60 and every other source
neutral (no calendar, no Trello, no price question), the final confidence is
56, not the 86 the claim states: `60*0.6 + 50*0.2 + 50*0.1 + 50*0.1 = 56`. -/
theorem C7_counterexample_final_is_56 :
    (evaluate_confidence ⟨none, none, ""⟩ 60
        ⟨"Client chat", "Good day, how are you", ""⟩ false).final_confidence = 56 ∧
    ¬ (evaluate_confidence ⟨none, none, ""⟩ 60
        ⟨"Client chat", "Good day, how are you", ""⟩ false).final_confidence = 86 := by
  have h : (evaluate_confidence ⟨none, none, ""⟩ 60
      ⟨"Client chat", "Good day, how are you", ""⟩ false).final_confidence = 56 := by
    simp only [evaluate_final_natDiv]
    rw [show score_calendar (check_calendar_availability none) = 50 from rfl,
        show score_trello (get_relevant_trello_tasks none "Client chat" 5) = 50 from rfl,
        show score_prices (extract_prices "" "Good day, how are you" "") = 50 from rfl]
    decide
  exact ⟨h, by rw [h]; decide⟩

/-- C7 (amended): Scenario D with AI confidence 60 and all other sources
neutral yields final confidence 56 (= `int(60*0.6 + 50*0.2 + 50*0.1 +
50*0.1)`), which is below the review threshold 90, so `needs_manual_review`
is true. -/
theorem C7_scenario_d_amended :
    (evaluate_confidence ⟨none, none, ""⟩ 60
        ⟨"Client chat", "Good day, how are you", ""⟩ false).final_confidence = 56 ∧
    (56 : ℤ) < 90 ∧
    (evaluate_confidence ⟨none, none, ""⟩ 60
        ⟨"Client chat", "Good day, how are you", ""⟩ false).needs_manual_review = true := by
  have h : (evaluate_confidence ⟨none, none, ""⟩ 60
      ⟨"Client chat", "Good day, how are you", ""⟩ false).final_confidence = 56 := by
    simp only [evaluate_final_natDiv]
    rw [show score_calendar (check_calendar_availability none) = 50 from rfl,
        show score_trello (get_relevant_trello_tasks none "Client chat" 5) = 50 from rfl,
        show score_prices (extract_prices "" "Good day, how are you" "") = 50 from rfl]
    decide
  refine ⟨h, by decide, ?_⟩
  rw [evaluate_needs_eq, h]
  decide

/-- C8 counterexample: in Scenario A (AI 95, calendar available, one matching
price line, no Trello tasks, working hours) the final confidence is 84, which
is not at least 90, and the router consequently does not take the auto-reply
path: `int(95*0.6 + 70*0.2 + 50*0.1 + 85*0.1) = int(84.5) = 84`. -/
theorem C8_counterexample_below_90 :
    (evaluate_confidence ⟨some ⟨Except.ok []⟩, none, "Pro: $200/mo, 10% discount"⟩ 95
        ⟨"Acme Client",
         "What is the price of the Pro package with a small-business discount",
         ""⟩ false).final_confidence = 84 ∧
    ¬ (90 : ℤ) ≤ 84 ∧
    route_decision false 84 true true true ≠ RoutePath.auto_reply := by
  have h : (evaluate_confidence
      ⟨some ⟨Except.ok []⟩, none, "Pro: $200/mo, 10% discount"⟩ 95
      ⟨"Acme Client",
       "What is the price of the Pro package with a small-business discount",
       ""⟩ false).final_confidence = 84 := by
    simp only [evaluate_final_natDiv]
    rw [show score_calendar (check_calendar_availability (some ⟨Except.ok []⟩)) = 70 from rfl,
        show score_trello (get_relevant_trello_tasks none "Acme Client" 5) = 50 from rfl,
        show score_prices (extract_prices "Pro: $200/mo, 10% discount"
          "What is the price of the Pro package with a small-business discount" "")
          = 85 from rfl]
    decide
  exact ⟨h, by decide, by decide⟩

/-- C8 (amended): Scenario A yields the source scores AI 95, calendar 70,
Trello 50, price 85 and final confidence 84 (< 90), so the router takes the
manual-review path (given an available draft bot), which invokes the reply
generator with `has_unreadable_files = False`. -/
theorem C8_scenario_a_amended :
    (evaluate_confidence ⟨some ⟨Except.ok []⟩, none, "Pro: $200/mo, 10% discount"⟩ 95
        ⟨"Acme Client",
         "What is the price of the Pro package with a small-business discount",
         ""⟩ false).final_confidence = 84 ∧
    (evaluate_confidence ⟨some ⟨Except.ok []⟩, none, "Pro: $200/mo, 10% discount"⟩ 95
        ⟨"Acme Client",
         "What is the price of the Pro package with a small-business discount",
         ""⟩ false).data_sources =
      { ai := 95, calendar := 70, trello := 50, price_list := 85 } ∧
    (evaluate_confidence ⟨some ⟨Except.ok []⟩, none, "Pro: $200/mo, 10% discount"⟩ 95
        ⟨"Acme Client",
         "What is the price of the Pro package with a small-business discount",
         ""⟩ false).needs_manual_review = true ∧
    route_decision false 84 true true true = RoutePath.manual_review ∧
    route_generation_flag RoutePath.manual_review = some false := by
  have h : (evaluate_confidence
      ⟨some ⟨Except.ok []⟩, none, "Pro: $200/mo, 10% discount"⟩ 95
      ⟨"Acme Client",
       "What is the price of the Pro package with a small-business discount",
       ""⟩ false).final_confidence = 84 := by
    simp only [evaluate_final_natDiv]
    rw [show score_calendar (check_calendar_availability (some ⟨Except.ok []⟩)) = 70 from rfl,
        show score_trello (get_relevant_trello_tasks none "Acme Client" 5) = 50 from rfl,
        show score_prices (extract_prices "Pro: $200/mo, 10% discount"
          "What is the price of the Pro package with a small-business discount" "")
          = 85 from rfl]
    decide
  refine ⟨h, by decide, ?_, by decide, rfl⟩
  rw [evaluate_needs_eq, h]
  decide

/-- C9 counterexample: on the response text `{}` the JSON decodes but the
confidence field is missing, and the parse returns confidence 50 (not 0) with
the raw text as report: a missing confidence degrades to 50 in the source,
contrary to the claim. -/
theorem C9_counterexample_missing_confidence :
    pyParse "\x7b\x7d" = (PyJson.str "\x7b\x7d", 50) ∧ ((50 : ℤ) ≠ 0) :=
  ⟨rfl, by decide⟩

/-- C9 (amended): the parse never raises (it is a total function) and
degrades as follows: no JSON fragment, an undecodable fragment, or a
confidence value that fails integer conversion all yield the raw text with
confidence 0; a present but missing/`null` confidence yields confidence 50
with the report taken from the JSON (defaulting to the raw text); a
convertible confidence is returned as parsed. -/
theorem C9_parse_degradation_amended (text : String) :
    (findJsonFragment text = none → pyParse text = (PyJson.str text, 0)) ∧
    (∀ frag, findJsonFragment text = some frag → json_loads frag = none →
      pyParse text = (PyJson.str text, 0)) ∧
    (∀ frag kvs, findJsonFragment text = some frag →
      json_loads frag = some (PyJson.obj kvs) →
      (pyDictGet kvs "confidence" = none ∨
       pyDictGet kvs "confidence" = some PyJson.null) →
      pyParse text = (reportOf kvs text, 50)) ∧
    (∀ frag kvs v, findJsonFragment text = some frag →
      json_loads frag = some (PyJson.obj kvs) →
      pyDictGet kvs "confidence" = some v → v ≠ PyJson.null →
      pyIntOfJson v = none → pyParse text = (PyJson.str text, 0)) ∧
    (∀ frag kvs v n, findJsonFragment text = some frag →
      json_loads frag = some (PyJson.obj kvs) →
      pyDictGet kvs "confidence" = some v →
      pyIntOfJson v = some n → pyParse text = (reportOf kvs text, n)) := by
  refine ⟨?_, ?_, ?_, ?_, ?_⟩
  · intro h
    unfold pyParse
    rw [h]
  · intro frag h1 h2
    unfold pyParse
    rw [h1]
    dsimp only
    rw [h2]
  · intro frag kvs h1 h2 h3
    unfold pyParse
    rw [h1]
    dsimp only
    rw [h2]
    dsimp only
    rcases h3 with h3 | h3 <;> rw [h3]
  · intro frag kvs v h1 h2 h3 hnull h5
    unfold pyParse
    rw [h1]
    dsimp only
    rw [h2]
    dsimp only
    rw [h3]
    cases v with
    | null => exact absurd rfl hnull
    | boolean b => simp [pyIntOfJson] at h5
    | int n => simp [pyIntOfJson] at h5
    | float x =>
      dsimp only
      rw [h5]
    | str s =>
      dsimp only
      rw [h5]
    | arr xs => rfl
    | obj fields => rfl
  · intro frag kvs v n h1 h2 h3 h4
    unfold pyParse
    rw [h1]
    dsimp only
    rw [h2]
    dsimp only
    rw [h3]
    cases v with
    | null => simp [pyIntOfJson] at h4
    | boolean b =>
      dsimp only
      rw [h4]
    | int m =>
      dsimp only
      rw [h4]
    | float x =>
      dsimp only
      rw [h4]
    | str s =>
      dsimp only
      rw [h4]
    | arr xs => simp [pyIntOfJson] at h4
    | obj fields => simp [pyIntOfJson] at h4

/-- C9 witness: the amended theorem applied to a response with no JSON. -/
theorem C9_witness :
    findJsonFragment "no json here" = none ∧
    pyParse "no json here" = (PyJson.str "no json here", 0) :=
  ⟨rfl, (C9_parse_degradation_amended "no json here").1 rfl⟩

/-- C10: `get_accumulated` consumes the buffer: with no pending messages for
the chat it returns `none` and leaves the state unchanged; with pending
messages it returns one merged unit whose text is the newline-join of the
pending texts in arrival order, clears the chat's entry, and an immediate
second call returns `none`. -/
theorem C10_accumulator_consumes (st : AccumulatorState) (chat_id : Int) :
    (st.pending_messages chat_id = [] → get_accumulated st chat_id = (none, st)) ∧
    (∀ m ms, st.pending_messages chat_id = m :: ms →
      ∃ merged st2,
        get_accumulated st chat_id = (some merged, st2) ∧
        merged.text = String.intercalate "\n" ((m :: ms).map (fun x => x.text)) ∧
        st2.pending_messages chat_id = [] ∧
        (get_accumulated st2 chat_id).1 = none) := by
  constructor
  · intro h
    unfold get_accumulated
    rw [h]
  · intro m ms h
    cases ms with
    | nil =>
      refine ⟨m,
        ⟨fun k => if k = chat_id then [] else st.pending_messages k,
         fun k => if k = chat_id then none else st.last_timestamp k⟩, ?_, ?_, ?_, ?_⟩
      · unfold get_accumulated
        rw [h]
        rfl
      · rfl
      · simp
      · unfold get_accumulated
        simp
    | cons b bs =>
      refine ⟨{ m with
          text := String.intercalate "\n" ((m :: b :: bs).map (fun x => x.text)) },
        ⟨fun k => if k = chat_id then [] else st.pending_messages k,
         fun k => if k = chat_id then none else st.last_timestamp k⟩, ?_, ?_, ?_, ?_⟩
      · unfold get_accumulated
        rw [h]
        rfl
      · rfl
      · simp
      · unfold get_accumulated
        simp

/-- C10 witness: the theorem applied at a state holding two pending messages
for chat 7. -/
theorem C10_witness :
    sampleAccumulator.pending_messages 7 = sampleHistoryA :: [sampleHistoryB] ∧
    (∃ merged st2,
      get_accumulated sampleAccumulator 7 = (some merged, st2) ∧
      merged.text = String.intercalate "\n"
        ((sampleHistoryA :: [sampleHistoryB]).map (fun x => x.text)) ∧
      st2.pending_messages 7 = [] ∧
      (get_accumulated st2 7).1 = none) :=
  ⟨rfl, (C10_accumulator_consumes sampleAccumulator 7).2 sampleHistoryA
    [sampleHistoryB] rfl⟩

end AIBI
